import Mathlib

set_option maxRecDepth 100000

/-!
Shallow embedding of the session & quota runtime of the Persona Discord bot
(src/rin.py): the conversation store (`ensure_thread`, `setpersona`, `reset`,
the appends inside `chat_openai`), the daily quota tracker (`_reset_if_new_day`,
`over_quota`, `bump_quota`), the completion-gateway wrapper (`chat_openai`),
the orchestrating `/chat` command (`chat`) and the reply chunker (`chunk`).
Dates are abstract day codes (`ℕ`); the external completion call is a
parameter returning a `GatewayResult`; Discord/network layers are out of scope.
-/

namespace Rin

/-- A stored chat message: a role string ("system", "user" or "assistant") and
its text content (src/rin.py line 38). -/
structure Message where
  role : String
  content : String
deriving DecidableEq

/-- src/rin.py lines 41-45: the default persona text. -/
def DEFAULT_PERSONA : String :=
  "You are Rin, a kind and helpful swim club captain. Be helpful and upbeat, avoid walls of text, and format responses cleanly. If the user asks for code, provide runnable snippets."

/-- Python truthiness helper for `x or d` on an optional string: both `None`
and the empty string are falsy and fall back to the default. -/
def pyOr (x : Option String) (d : String) : String :=
  match x with
  | none => d
  | some s => if s = "" then d else s

/-- Process-global mutable state of src/rin.py: `convos` (line 39),
`usage_dm`, `usage_guild` and `usage_day` (lines 54-56). -/
structure BotState where
  convos : ℕ → Option (List Message)
  usage_dm : ℕ → ℕ
  usage_guild : ℕ → ℕ
  usage_day : ℕ

/-- Startup configuration (lines 26-27): `DM_DAILY_LIMIT` and
`GUILD_DAILY_LIMIT`; 0 means no cap. -/
structure Config where
  dmLimit : ℕ
  guildLimit : ℕ

/-- Fresh process state with watermark day `d`: no threads, all counters 0. -/
def initState (d : ℕ) : BotState :=
  ⟨fun _ => none, fun _ => 0, fun _ => 0, d⟩

/-- Read `convos[uid]` (the empty list standing for a missing key where the
source only reads existing keys). -/
def getThread (st : BotState) (uid : ℕ) : List Message :=
  (st.convos uid).getD []

/-- Write `convos[uid] = t`. -/
def setThread (st : BotState) (uid : ℕ) (t : List Message) : BotState :=
  { st with convos := fun x => if x = uid then some t else st.convos x }

/-- Line 51's trim expression `convos[user_id][:1] + convos[user_id][-12:]`:
the first element (if any) followed by the last 12 elements. -/
def trim (t : List Message) : List Message :=
  t.take 1 ++ t.drop (t.length - 12)

/-- src/rin.py lines 47-51 `ensure_thread`: create the thread with the given
persona (or the default) when absent, then re-apply the trim expression. -/
def ensure_thread (uid : ℕ) (persona : Option String) (st : BotState) : BotState :=
  let t := match st.convos uid with
    | none => [⟨"system", pyOr persona DEFAULT_PERSONA⟩]
    | some t => t
  setThread st uid (trim t)

/-- `convos[uid].append(m)` (lines 103 and 115). -/
def appendMsg (uid : ℕ) (m : Message) (st : BotState) : BotState :=
  setThread st uid (getThread st uid ++ [m])

/-- src/rin.py lines 58-64 `_reset_if_new_day`, with the current date passed
explicitly: on a date different from the watermark, clear both counter maps
and move the watermark. -/
def reset_if_new_day (today : ℕ) (st : BotState) : BotState :=
  if today ≠ st.usage_day then
    { st with usage_day := today, usage_dm := fun _ => 0, usage_guild := fun _ => 0 }
  else st

/-- src/rin.py lines 69-75 `over_quota`: day rollover, then the per-scope
check; a zero (falsy) limit skips its branch. Returns the Boolean together
with the possibly rolled-over state. -/
def over_quota (cfg : Config) (today : ℕ) (scope : String) (key : ℕ) (st : BotState) :
    Bool × BotState :=
  let st := reset_if_new_day today st
  if scope = "dm" ∧ cfg.dmLimit ≠ 0 then (decide (cfg.dmLimit ≤ st.usage_dm key), st)
  else if scope = "guild" ∧ cfg.guildLimit ≠ 0 then (decide (cfg.guildLimit ≤ st.usage_guild key), st)
  else (false, st)

/-- src/rin.py lines 77-81 `bump_quota`: the "dm" scope bumps the DM counter,
any other scope bumps the guild counter. -/
def bump_quota (scope : String) (key : ℕ) (st : BotState) : BotState :=
  if scope = "dm" then
    { st with usage_dm := fun x => if x = key then st.usage_dm x + 1 else st.usage_dm x }
  else
    { st with usage_guild := fun x => if x = key then st.usage_guild x + 1 else st.usage_guild x }

/-- Outcome of one external completion call, classifying the exception
handlers of src/rin.py lines 112-126; a successful response carries the
possibly-null `message.content`. -/
inductive GatewayResult where
  | ok (content : Option String)
  | rateLimit
  | apiStatus (status : ℕ) (message : Option String)
  | connectionFailure
  | unexpected (typeName : String)
deriving DecidableEq

/-- Lines 118-119: the fixed rate-limit reply. -/
def RATE_LIMIT_MSG : String :=
  "⚠️ The bot’s AI quota is currently exhausted or rate-limited.\nPlease try again later (or top up billing)."

/-- Lines 120-122: the APIStatusError reply, with the Python `or` fallback on
the error message. -/
def apiStatusMsg (status : ℕ) (message : Option String) : String :=
  "⚠️ OpenAI error " ++ toString status ++ ": " ++
    pyOr message "Something went wrong. Please try again soon."

/-- Lines 123-124: the connection-failure reply. -/
def CONNECTION_MSG : String :=
  "⚠️ I couldn’t reach the AI service. Please try again in a bit."

/-- Lines 125-126: the catch-all reply, built from the exception type name. -/
def unexpectedMsg (typeName : String) : String :=
  "⚠️ Unexpected error: " ++ typeName ++ ". Please try again."

/-- src/rin.py lines 101-126 `chat_openai`: ensure the thread, append the
user message, call the gateway on the stored message list; on success the
possibly-null content is normalized with `or ""`, appended as the assistant
message and returned; each failure returns its friendly text with no
assistant append. -/
def chat_openai (gw : List Message → GatewayResult) (uid : ℕ) (user_msg : String)
    (st : BotState) : String × BotState :=
  let st := ensure_thread uid none st
  let st := appendMsg uid ⟨"user", user_msg⟩ st
  match gw (getThread st uid) with
  | .ok content =>
    let text := pyOr content ""
    (text, appendMsg uid ⟨"assistant", text⟩ st)
  | .rateLimit => (RATE_LIMIT_MSG, st)
  | .apiStatus s m => (apiStatusMsg s m, st)
  | .connectionFailure => (CONNECTION_MSG, st)
  | .unexpected t => (unexpectedMsg t, st)

/-- src/rin.py lines 135-137 `/setpersona`: `ensure_thread(uid, persona)`
followed by the index assignment `convos[uid][0] = {"role": "system",
"content": persona}`. -/
def setpersona (uid : ℕ) (persona : String) (st : BotState) : BotState :=
  let st := ensure_thread uid (some persona) st
  setThread st uid ((getThread st uid).set 0 ⟨"system", persona⟩)

/-- src/rin.py lines 146-147 `/reset`: `convos.pop(user_id, None)`. -/
def reset (uid : ℕ) (st : BotState) : BotState :=
  { st with convos := fun x => if x = uid then none else st.convos x }

/-- Line 159: the limit quoted in the refusal message. -/
def limitFor (cfg : Config) (scope : String) : ℕ :=
  if scope = "dm" then cfg.dmLimit else cfg.guildLimit

/-- Lines 160-162: the daily-limit refusal text. -/
def LIMIT_MSG (scope : String) (limit : ℕ) : String :=
  "⚠️ Daily " ++ scope.toUpper ++ " limit reached (" ++ toString limit ++
    "). Please try again tomorrow."

/-- src/rin.py lines 156-178 `/chat` — the Send operation: quota admission
check (returning the refusal with no further effect when over quota),
otherwise the gateway turn followed by an unconditional `bump_quota`; the
returned string is the transmitted reply. -/
def chat (cfg : Config) (gw : List Message → GatewayResult) (today : ℕ) (scope : String)
    (key : ℕ) (uid : ℕ) (msg : String) (st : BotState) : String × BotState :=
  let q := over_quota cfg today scope key st
  if q.1 then (LIMIT_MSG scope (limitFor cfg scope), q.2)
  else
    let r := chat_openai gw uid msg q.2
    (r.1, bump_quota scope key r.2)

/-- src/rin.py lines 128-129 `chunk`:
`[s[i:i+n] for i in range(0, len(s), n)]` (for a positive step, `range`
enumerates `⌈len/n⌉` indices `0, n, 2n, ...`). -/
def chunk (s : List Char) (n : ℕ) : List (List Char) :=
  (List.range ((s.length + n - 1) / n)).map fun i => (s.drop (i * n)).take n

/-- Read the quota counter selected the way `bump_quota` selects it. -/
def counterOf (st : BotState) (scope : String) (key : ℕ) : ℕ :=
  if scope = "dm" then st.usage_dm key else st.usage_guild key

/-- N consecutive successful chat turns for one identity, from a fresh
process: each turn is `chat_openai` against a gateway answering `reply`. -/
def runTurns (uid : ℕ) (msg reply : String) : ℕ → BotState
  | 0 => initState 0
  | n + 1 => (chat_openai (fun _ => .ok (some reply)) uid msg (runTurns uid msg reply n)).2

/-- Gateway stub answering "hello" to every completion request. -/
def c5gw : List Message → GatewayResult := fun _ => .ok (some "hello")

/-- Trajectory of the quota scenario: DM limit 3, fixed day `d`, key `k`;
state after `n` Send calls through `/chat` (each against the "hello" stub). -/
def c5state (d k uid : ℕ) (m : String) : ℕ → BotState
  | 0 => initState d
  | n + 1 => (chat ⟨3, 0⟩ c5gw d "dm" k uid m (c5state d k uid m n)).2

/-- Concrete pre-state for the `setpersona` frame analysis: identity 1 holds
the thread system "S", user "u", assistant "a". -/
def c8state : BotState :=
  setThread (initState 0) 1 [⟨"system", "S"⟩, ⟨"user", "u"⟩, ⟨"assistant", "a"⟩]

/-! ## Basic state lemmas -/

theorem getThread_setThread (st : BotState) (uid : ℕ) (t : List Message) :
    getThread (setThread st uid t) uid = t := by
  simp [getThread, setThread]

theorem convos_setThread_same (st : BotState) (uid : ℕ) (t : List Message) :
    (setThread st uid t).convos uid = some t := by
  simp [setThread]

theorem convos_setThread_ne (st : BotState) (uid : ℕ) (t : List Message) (uid2 : ℕ)
    (h : uid2 ≠ uid) : (setThread st uid t).convos uid2 = st.convos uid2 := by
  simp [setThread, h]

theorem getThread_appendMsg (uid : ℕ) (m : Message) (st : BotState) :
    getThread (appendMsg uid m st) uid = getThread st uid ++ [m] := by
  simp [appendMsg, getThread_setThread]

theorem ensure_thread_none (st : BotState) (uid : ℕ) (p : Option String)
    (h : st.convos uid = none) :
    ensure_thread uid p st = setThread st uid (trim [⟨"system", pyOr p DEFAULT_PERSONA⟩]) := by
  simp [ensure_thread, h]

theorem ensure_thread_some (st : BotState) (uid : ℕ) (p : Option String) (t : List Message)
    (h : st.convos uid = some t) :
    ensure_thread uid p st = setThread st uid (trim t) := by
  simp [ensure_thread, h]

theorem chat_openai_rateLimit (uid : ℕ) (m : String) (st : BotState) :
    chat_openai (fun _ => GatewayResult.rateLimit) uid m st =
      (RATE_LIMIT_MSG, appendMsg uid ⟨"user", m⟩ (ensure_thread uid none st)) := rfl

theorem chat_openai_usage_dm (gw : List Message → GatewayResult) (uid : ℕ) (m : String)
    (st : BotState) : ((chat_openai gw uid m st).2).usage_dm = st.usage_dm := by
  simp only [chat_openai]
  cases gw (getThread (appendMsg uid ⟨"user", m⟩ (ensure_thread uid none st)) uid) <;> rfl

theorem chat_openai_usage_guild (gw : List Message → GatewayResult) (uid : ℕ) (m : String)
    (st : BotState) : ((chat_openai gw uid m st).2).usage_guild = st.usage_guild := by
  simp only [chat_openai]
  cases gw (getThread (appendMsg uid ⟨"user", m⟩ (ensure_thread uid none st)) uid) <;> rfl

theorem bump_quota_convos (scope : String) (key : ℕ) (st : BotState) :
    (bump_quota scope key st).convos = st.convos := by
  unfold bump_quota
  split <;> rfl

theorem counterOf_bump (scope : String) (key : ℕ) (st : BotState) :
    counterOf (bump_quota scope key st) scope key = counterOf st scope key + 1 := by
  unfold counterOf bump_quota
  by_cases h : scope = "dm" <;> simp [h]

theorem over_quota_snd (cfg : Config) (today : ℕ) (scope : String) (key : ℕ) (st : BotState) :
    (over_quota cfg today scope key st).2 = reset_if_new_day today st := by
  unfold over_quota
  split_ifs <;> rfl

theorem reset_if_new_day_same (today : ℕ) (st : BotState) (h : today = st.usage_day) :
    reset_if_new_day today st = st := by
  simp [reset_if_new_day, h]

theorem over_quota_true_same_day (cfg : Config) (today : ℕ) (scope : String) (key : ℕ)
    (st : BotState) (h : (over_quota cfg today scope key st).1 = true) :
    today = st.usage_day := by
  by_contra hd
  revert h
  unfold over_quota reset_if_new_day
  rw [if_pos hd]
  split_ifs with h1 h2
  · simp only [decide_eq_true_eq]
    omega
  · simp only [decide_eq_true_eq]
    omega
  · simp

theorem chat_openai_usage_day (gw : List Message → GatewayResult) (uid : ℕ) (m : String)
    (st : BotState) : ((chat_openai gw uid m st).2).usage_day = st.usage_day := by
  simp only [chat_openai]
  cases gw (getThread (appendMsg uid ⟨"user", m⟩ (ensure_thread uid none st)) uid) <;> rfl

theorem bump_quota_usage_day (scope : String) (key : ℕ) (st : BotState) :
    (bump_quota scope key st).usage_day = st.usage_day := by
  unfold bump_quota
  split <;> rfl

theorem bump_quota_dm_same (key : ℕ) (st : BotState) :
    (bump_quota "dm" key st).usage_dm key = st.usage_dm key + 1 := by
  simp [bump_quota]

/-- Core of the over-quota path of `/chat`: when the admission check reports
over quota, the command returns the refusal text and the state completely
unchanged (a rolled-over day would have cleared the counters and passed). -/
theorem chat_blocked (cfg : Config) (gw : List Message → GatewayResult) (today : ℕ)
    (scope : String) (key uid : ℕ) (msg : String) (st : BotState)
    (h : (over_quota cfg today scope key st).1 = true) :
    chat cfg gw today scope key uid msg st = (LIMIT_MSG scope (limitFor cfg scope), st) := by
  have hd := over_quota_true_same_day cfg today scope key st h
  have h2 : (over_quota cfg today scope key st).2 = st := by
    rw [over_quota_snd, reset_if_new_day_same _ _ hd]
  simp [chat, h, h2]

theorem over_quota_dm3_same_day (d k : ℕ) (st : BotState) (hd : st.usage_day = d) :
    over_quota ⟨3, 0⟩ d "dm" k st = (decide (3 ≤ st.usage_dm k), st) := by
  unfold over_quota
  rw [reset_if_new_day_same _ _ hd.symm]
  simp

theorem over_quota_dm3_new_day (d k : ℕ) (st : BotState) (hd : d ≠ st.usage_day) :
    over_quota ⟨3, 0⟩ d "dm" k st =
      (false, { st with usage_day := d, usage_dm := fun _ => 0, usage_guild := fun _ => 0 }) := by
  unfold over_quota reset_if_new_day
  rw [if_pos hd]
  simp

/-- Invariant of the limit-3 quota scenario: the watermark stays on day `d`
and the DM counter for `k` counts the successful calls, saturating at 3. -/
theorem c5state_invariant (d k uid : ℕ) (m : String) (n : ℕ) :
    (c5state d k uid m n).usage_day = d ∧ (c5state d k uid m n).usage_dm k = min n 3 := by
  induction n with
  | zero => exact ⟨rfl, rfl⟩
  | succ n ih =>
    obtain ⟨ihd, ihc⟩ := ih
    by_cases hn : 3 ≤ n
    · have hq : over_quota ⟨3, 0⟩ d "dm" k (c5state d k uid m n) =
          (true, c5state d k uid m n) := by
        rw [over_quota_dm3_same_day d k _ ihd, ihc]
        simp
        omega
      constructor
      · show (chat ⟨3, 0⟩ c5gw d "dm" k uid m (c5state d k uid m n)).2.usage_day = d
        simp [chat, hq, ihd]
      · show (chat ⟨3, 0⟩ c5gw d "dm" k uid m (c5state d k uid m n)).2.usage_dm k = min (n + 1) 3
        simp [chat, hq, ihc]
        omega
    · have hq : over_quota ⟨3, 0⟩ d "dm" k (c5state d k uid m n) =
          (false, c5state d k uid m n) := by
        rw [over_quota_dm3_same_day d k _ ihd, ihc]
        simp
        omega
      constructor
      · show (chat ⟨3, 0⟩ c5gw d "dm" k uid m (c5state d k uid m n)).2.usage_day = d
        simp [chat, hq, bump_quota_usage_day, chat_openai_usage_day, ihd]
      · show (chat ⟨3, 0⟩ c5gw d "dm" k uid m (c5state d k uid m n)).2.usage_dm k = min (n + 1) 3
        simp [chat, hq, bump_quota_dm_same, chat_openai_usage_dm, ihc]
        omega

/-! ## Trim and turn lemmas -/

theorem trim_length (t : List Message) :
    (trim t).length = min 1 t.length + (t.length - (t.length - 12)) := by
  simp [trim]

theorem trim_length_le (t : List Message) : (trim t).length ≤ 13 := by
  rw [trim_length]
  omega

theorem trim_cons (a : Message) (l : List Message) :
    trim (a :: l) = a :: (a :: l).drop ((a :: l).length - 12) := by
  simp [trim]

theorem getThread_ensure_some (st : BotState) (uid : ℕ) (p : Option String) (t : List Message)
    (h : st.convos uid = some t) :
    getThread (ensure_thread uid p st) uid = trim t := by
  rw [ensure_thread_some st uid p t h, getThread_setThread]

theorem getThread_ensure_none (st : BotState) (uid : ℕ) (p : Option String)
    (h : st.convos uid = none) :
    getThread (ensure_thread uid p st) uid = trim [⟨"system", pyOr p DEFAULT_PERSONA⟩] := by
  rw [ensure_thread_none st uid p h, getThread_setThread]

theorem getThread_ensure_le (uid : ℕ) (p : Option String) (st : BotState) :
    (getThread (ensure_thread uid p st) uid).length ≤ 13 := by
  cases h : st.convos uid with
  | none => rw [getThread_ensure_none st uid p h]; exact trim_length_le _
  | some t => rw [getThread_ensure_some st uid p t h]; exact trim_length_le _

theorem turn_state (r : String) (uid : ℕ) (m : String) (st : BotState) :
    (chat_openai (fun _ => GatewayResult.ok (some r)) uid m st).2 =
      appendMsg uid ⟨"assistant", pyOr (some r) ""⟩
        (appendMsg uid ⟨"user", m⟩ (ensure_thread uid none st)) := rfl

theorem turn_present (r : String) (uid : ℕ) (m : String) (st : BotState) :
    ((chat_openai (fun _ => GatewayResult.ok (some r)) uid m st).2).convos uid =
      some (getThread ((chat_openai (fun _ => GatewayResult.ok (some r)) uid m st).2) uid) := by
  rw [turn_state]
  show (setThread _ uid _).convos uid = some (getThread (setThread _ uid _) uid)
  rw [convos_setThread_same, getThread_setThread]

theorem turn_thread (r : String) (uid : ℕ) (m : String) (st : BotState) (t : List Message)
    (h : st.convos uid = some t) :
    getThread ((chat_openai (fun _ => GatewayResult.ok (some r)) uid m st).2) uid =
      trim t ++ [⟨"user", m⟩, ⟨"assistant", pyOr (some r) ""⟩] := by
  rw [turn_state, getThread_appendMsg, getThread_appendMsg, getThread_ensure_some st uid none t h,
    List.append_assoc]
  rfl

theorem turn_thread_none (r : String) (uid : ℕ) (m : String) (st : BotState)
    (h : st.convos uid = none) :
    getThread ((chat_openai (fun _ => GatewayResult.ok (some r)) uid m st).2) uid =
      trim [⟨"system", DEFAULT_PERSONA⟩] ++
        [⟨"user", m⟩, ⟨"assistant", pyOr (some r) ""⟩] := by
  rw [turn_state, getThread_appendMsg, getThread_appendMsg, getThread_ensure_none st uid none h,
    List.append_assoc]
  rfl

/-- Thread invariant along consecutive successful turns: the thread exists,
its length follows `min (3*N + 1) 15` (4, 7, 10, 13, then 15 forever), and
its head stays the default system persona. -/
theorem runTurns_invariant (uid : ℕ) (m r : String) :
    ∀ N, 1 ≤ N →
      (runTurns uid m r N).convos uid = some (getThread (runTurns uid m r N) uid)
      ∧ (getThread (runTurns uid m r N) uid).length = min (3 * N + 1) 15
      ∧ (getThread (runTurns uid m r N) uid).head? = some ⟨"system", DEFAULT_PERSONA⟩ := by
  intro N
  induction N with
  | zero => intro h; exact absurd h (by omega)
  | succ n ih =>
    intro _
    rcases Nat.eq_zero_or_pos n with hn | hn
    · subst hn
      refine ⟨turn_present r uid m _, ?_, ?_⟩
      · rw [show getThread (runTurns uid m r 1) uid =
            getThread ((chat_openai (fun _ => GatewayResult.ok (some r)) uid m (initState 0)).2)
              uid from rfl,
          turn_thread_none r uid m _ rfl]
        simp [trim]
      · rw [show getThread (runTurns uid m r 1) uid =
            getThread ((chat_openai (fun _ => GatewayResult.ok (some r)) uid m (initState 0)).2)
              uid from rfl,
          turn_thread_none r uid m _ rfl]
        rfl
    · obtain ⟨ihp, ihl, ihh⟩ := ih hn
      have hne : getThread (runTurns uid m r n) uid ≠ [] := by
        intro hemp
        rw [hemp] at ihl
        simp at ihl
        omega
      obtain ⟨a, l, hcons⟩ := List.exists_cons_of_ne_nil hne
      have ha : a = ⟨"system", DEFAULT_PERSONA⟩ := by
        rw [hcons] at ihh
        simpa using ihh
      have hthread : getThread (runTurns uid m r (n + 1)) uid =
          trim (getThread (runTurns uid m r n) uid) ++
            [⟨"user", m⟩, ⟨"assistant", pyOr (some r) ""⟩] := by
        show getThread
            ((chat_openai (fun _ => GatewayResult.ok (some r)) uid m (runTurns uid m r n)).2)
            uid = _
        exact turn_thread r uid m _ _ ihp
      refine ⟨turn_present r uid m _, ?_, ?_⟩
      · rw [hthread, List.length_append, trim_length]
        simp only [List.length_cons, List.length_nil]
        omega
      · rw [hthread, hcons, ha, trim_cons]
        rfl

theorem getThread_setpersona (uid : ℕ) (p : String) (st : BotState) :
    getThread (setpersona uid p st) uid =
      (getThread (ensure_thread uid (some p) st) uid).set 0 ⟨"system", p⟩ := by
  simp only [setpersona]
  rw [getThread_setThread]

/-! ## Chunk lemmas -/

theorem numChunks_succ (L n : ℕ) (hL : 0 < L) (hn : 0 < n) :
    (L + n - 1) / n = (L - n + n - 1) / n + 1 := by
  rcases le_or_lt n L with h | h
  · have he : L + n - 1 = (L - n + n - 1) + n := by omega
    rw [he, Nat.add_div_right _ hn]
  · have h1 : L - n = 0 := by omega
    have h2 : L + n - 1 = (L - 1) + n := by omega
    have h3 : (L - 1) / n = 0 := Nat.div_eq_of_lt (by omega)
    have h5 : 0 + n - 1 = n - 1 := by omega
    have h4 : (n - 1) / n = 0 := Nat.div_eq_of_lt (by omega)
    rw [h1, h2, Nat.add_div_right _ hn, h3, h5, h4]

theorem chunk_nil (n : ℕ) : chunk [] n = [] := by
  unfold chunk
  simp only [List.length_nil]
  have h : (0 + n - 1) / n = 0 := by
    rcases Nat.eq_zero_or_pos n with h | h
    · subst h; rfl
    · exact Nat.div_eq_of_lt (by omega)
  rw [h]
  rfl

theorem chunk_cons (s : List Char) (n : ℕ) (hs : s ≠ []) (hn : 0 < n) :
    chunk s n = s.take n :: chunk (s.drop n) n := by
  have hL : 0 < s.length := List.length_pos.mpr hs
  unfold chunk
  rw [List.length_drop, numChunks_succ s.length n hL hn, List.range_succ_eq_map,
    List.map_cons, List.map_map]
  congr 1
  · simp
  · congr 1
    funext i
    simp only [Function.comp_apply, Nat.succ_mul, List.drop_drop]
    rw [Nat.add_comm]

theorem chunk_join (n : ℕ) (hn : 0 < n) (s : List Char) : (chunk s n).flatten = s := by
  by_cases hs : s = []
  · subst hs
    rw [chunk_nil]
    rfl
  · rw [chunk_cons s n hs hn, List.flatten_cons, chunk_join n hn (s.drop n),
      List.take_append_drop]
termination_by s.length
decreasing_by
  simp only [List.length_drop]
  have := List.length_pos.mpr hs
  omega

theorem chunk_length (s : List Char) (n : ℕ) :
    (chunk s n).length = (s.length + n - 1) / n := by
  simp [chunk]

theorem chunk_get (s : List Char) (n i : ℕ) (h : i < (chunk s n).length) :
    (chunk s n).get ⟨i, h⟩ = (s.drop (i * n)).take n := by
  simp [chunk, List.get_eq_getElem, List.getElem_map, List.getElem_range]

theorem chunk_get_length (s : List Char) (n i : ℕ) (hn : 0 < n)
    (h : i + 1 < (chunk s n).length) :
    ((chunk s n).get ⟨i, Nat.lt_of_succ_lt h⟩).length = n := by
  rw [chunk_get, List.length_take, List.length_drop]
  rw [chunk_length] at h
  have h2 : (i + 2) * n ≤ s.length + n - 1 := (Nat.le_div_iff_mul_le hn).mp (by omega)
  have h3 : i * n + 2 * n ≤ s.length + n - 1 := by
    calc i * n + 2 * n = (i + 2) * n := by ring
    _ ≤ s.length + n - 1 := h2
  generalize i * n = A at h3 ⊢
  omega

theorem chunk_map_length (s : List Char) (n : ℕ) :
    (chunk s n).map List.length =
      (List.range ((s.length + n - 1) / n)).map (fun i => min n (s.length - i * n)) := by
  unfold chunk
  rw [List.map_map]
  congr 1
  funext i
  simp [Function.comp_apply, List.length_take, List.length_drop]

/-! ## Claim theorems -/

/-- C10: a successful completion whose `message.content` is null is normalized
by `or ""` to the empty string: `chat_openai` appends the empty assistant
message and returns the empty reply, instead of failing or storing a null. -/
theorem claim_C10 (uid : ℕ) (msg : String) (st : BotState) :
    chat_openai (fun _ => GatewayResult.ok none) uid msg st =
      ("", appendMsg uid ⟨"assistant", ""⟩ (appendMsg uid ⟨"user", msg⟩ (ensure_thread uid none st)))
    ∧ (getThread ((chat_openai (fun _ => GatewayResult.ok none) uid msg st).2) uid).getLast? =
        some ⟨"assistant", ""⟩ := by
  constructor
  · rfl
  · rw [show (chat_openai (fun _ => GatewayResult.ok none) uid msg st).2 =
        appendMsg uid ⟨"assistant", ""⟩ (appendMsg uid ⟨"user", msg⟩ (ensure_thread uid none st))
      from rfl]
    rw [getThread_appendMsg]
    exact List.getLast?_concat _

/-- C2 evaluation at the spec scenario: fresh identity 1, DM scope with limit
0, gateway answering "hello"; the reply is "hello" but the stored thread has
4 messages — the default system persona is duplicated at indices 0 and 1 by
the trim expression — not the 3 messages the claim states. -/
theorem claim_C2_code_eval :
    (chat ⟨0, 0⟩ (fun _ => .ok (some "hello")) 0 "dm" 1 1 "hi" (initState 0)).1 = "hello"
    ∧ getThread ((chat ⟨0, 0⟩ (fun _ => .ok (some "hello")) 0 "dm" 1 1 "hi" (initState 0)).2) 1 =
        [⟨"system", DEFAULT_PERSONA⟩, ⟨"system", DEFAULT_PERSONA⟩,
         ⟨"user", "hi"⟩, ⟨"assistant", "hello"⟩]
    ∧ (getThread ((chat ⟨0, 0⟩ (fun _ => .ok (some "hello")) 0 "dm" 1 1 "hi" (initState 0)).2)
        1).length ≠ 3 := by
  refine ⟨by decide, by decide, by decide⟩

/-- C9 evaluation: after `Reset` (on an identity that had history) the next
`EnsureThread` stores TWO copies of the default persona message — the trim
expression `t[:1] + t[-12:]` duplicates the single system entry — not the
single message the claim states. -/
theorem claim_C9_code_eval :
    getThread
        (ensure_thread 1 none
          (reset 1 ((chat_openai (fun _ => .ok (some "hello")) 1 "hi" (initState 0)).2))) 1 =
      [⟨"system", DEFAULT_PERSONA⟩, ⟨"system", DEFAULT_PERSONA⟩]
    ∧ (getThread
        (ensure_thread 1 none
          (reset 1 ((chat_openai (fun _ => .ok (some "hello")) 1 "hi" (initState 0)).2)))
        1).length ≠ 1 := by
  refine ⟨by decide, by decide⟩

/-- C1 counterexample: after 14 consecutive successful turns for identity 1
the stored thread length is 15, not the claimed 13 (the appends of a turn run
after, not before, the only trim). -/
theorem claim_C1_counterexample :
    (getThread (runTurns 1 "hi" "hello" 14) 1).length = 15
    ∧ (getThread (runTurns 1 "hi" "hello" 14) 1).length ≠ 13 := by
  refine ⟨by decide, by decide⟩

/-- C3 counterexample: with DM limit 5, a rate-limited gateway call still bumps
the DM counter from 0 to 1 (line 168 runs unconditionally), contradicting the
claim that the counter is left unincremented. -/
theorem claim_C3_counterexample :
    (chat ⟨5, 0⟩ (fun _ => .rateLimit) 0 "dm" 1 1 "hi" (initState 0)).1 = RATE_LIMIT_MSG
    ∧ (initState 0).usage_dm 1 = 0
    ∧ ((chat ⟨5, 0⟩ (fun _ => .rateLimit) 0 "dm" 1 1 "hi" (initState 0)).2).usage_dm 1 = 1 := by
  refine ⟨by decide, by decide, by decide⟩

/-- C4: whenever the quota admission check reports the scope over quota, Send
returns the fixed "limit reached" message, performs no external completion
call (the result does not depend on the gateway `gw`), and leaves the whole
state — conversation store and quota counters — unchanged. -/
theorem claim_C4 (cfg : Config) (gw : List Message → GatewayResult) (today : ℕ)
    (scope : String) (key uid : ℕ) (msg : String) (st : BotState)
    (h : (over_quota cfg today scope key st).1 = true) :
    chat cfg gw today scope key uid msg st = (LIMIT_MSG scope (limitFor cfg scope), st) :=
  chat_blocked cfg gw today scope key uid msg st h

/-- C4 witness: a DM state with counter 3 against limit 3 is over quota, and
`/chat` returns the refusal with the state unchanged. -/
theorem claim_C4_witness :
    (over_quota ⟨3, 0⟩ 0 "dm" 1
        (⟨fun _ => none, fun _ => 3, fun _ => 0, 0⟩ : BotState)).1 = true
    ∧ chat ⟨3, 0⟩ (fun _ => GatewayResult.ok none) 0 "dm" 1 1 "hi"
        (⟨fun _ => none, fun _ => 3, fun _ => 0, 0⟩ : BotState) =
      (LIMIT_MSG "dm" (limitFor ⟨3, 0⟩ "dm"),
        (⟨fun _ => none, fun _ => 3, fun _ => 0, 0⟩ : BotState)) :=
  ⟨by decide,
   claim_C4 ⟨3, 0⟩ (fun _ => GatewayResult.ok none) 0 "dm" 1 1 "hi"
     (⟨fun _ => none, fun _ => 3, fun _ => 0, 0⟩ : BotState) (by decide)⟩

/-- C6: for every configuration, date, key and state, the admission check on
the "dm" (resp. "guild") scope returns true exactly when the configured limit
is positive and the post-rollover counter has reached it; a zero limit means
unlimited and the check returns false. -/
theorem claim_C6 (cfg : Config) (today : ℕ) (key : ℕ) (st : BotState) :
    ((over_quota cfg today "dm" key st).1 = true ↔
       0 < cfg.dmLimit ∧ cfg.dmLimit ≤ (reset_if_new_day today st).usage_dm key)
    ∧ ((over_quota cfg today "guild" key st).1 = true ↔
       0 < cfg.guildLimit ∧ cfg.guildLimit ≤ (reset_if_new_day today st).usage_guild key)
    ∧ (cfg.dmLimit = 0 → (over_quota cfg today "dm" key st).1 = false)
    ∧ (cfg.guildLimit = 0 → (over_quota cfg today "guild" key st).1 = false) := by
  have hgd : ("guild" : String) ≠ "dm" := by decide
  have hdg : ("dm" : String) ≠ "guild" := by decide
  refine ⟨?_, ?_, ?_, ?_⟩
  · unfold over_quota
    by_cases h : cfg.dmLimit = 0
    · simp [h]
    · simp [h, Nat.pos_of_ne_zero h]
  · unfold over_quota
    by_cases h : cfg.guildLimit = 0
    · simp [h, hgd]
    · simp [h, hgd, Nat.pos_of_ne_zero h]
  · intro h
    unfold over_quota
    simp [h, hdg]
  · intro h
    unfold over_quota
    simp [h, hgd]

/-- C6 witness: with limit 0 the DM check is false; with limit 3 and counter 3
it is true. -/
theorem claim_C6_witness :
    (over_quota ⟨0, 0⟩ 0 "dm" 1 (initState 0)).1 = false
    ∧ (over_quota ⟨3, 0⟩ 0 "dm" 1
        (⟨fun _ => none, fun _ => 3, fun _ => 0, 0⟩ : BotState)).1 = true :=
  ⟨(claim_C6 ⟨0, 0⟩ 0 1 (initState 0)).2.2.1 rfl,
   (claim_C6 ⟨3, 0⟩ 0 1 (⟨fun _ => none, fun _ => 3, fun _ => 0, 0⟩ : BotState)).1.mpr
     ⟨by decide, by decide⟩⟩

/-- C3 amended: on a rate-limited gateway with the scope not over quota, Send
returns the fixed rate-limit message and appends no assistant message (the
store holds exactly the post-rollover threads plus the new user message), but
the quota counter for the scope IS incremented by one — line 168 bumps it
unconditionally after every attempted call. -/
theorem claim_C3_amended (cfg : Config) (today : ℕ) (scope : String) (key uid : ℕ)
    (m : String) (st : BotState)
    (hq : (over_quota cfg today scope key st).1 = false) :
    (chat cfg (fun _ => GatewayResult.rateLimit) today scope key uid m st).1 = RATE_LIMIT_MSG
    ∧ ((chat cfg (fun _ => GatewayResult.rateLimit) today scope key uid m st).2).convos =
        (appendMsg uid ⟨"user", m⟩ (ensure_thread uid none (reset_if_new_day today st))).convos
    ∧ counterOf ((chat cfg (fun _ => GatewayResult.rateLimit) today scope key uid m st).2)
          scope key =
        counterOf (reset_if_new_day today st) scope key + 1 := by
  have hchat : chat cfg (fun _ => GatewayResult.rateLimit) today scope key uid m st =
      (RATE_LIMIT_MSG,
        bump_quota scope key
          (appendMsg uid ⟨"user", m⟩ (ensure_thread uid none (reset_if_new_day today st)))) := by
    simp [chat, hq, over_quota_snd, chat_openai_rateLimit]
  rw [hchat]
  exact ⟨rfl, bump_quota_convos _ _ _, by rw [counterOf_bump]; rfl⟩

/-- C3 witness: concrete unlimited DM scope, rate-limited gateway — the reply
is the fixed rate-limit text, no assistant message is stored, and the counter
moves from 0 to 1. -/
theorem claim_C3_amended_witness :
    (chat ⟨0, 0⟩ (fun _ => GatewayResult.rateLimit) 0 "dm" 1 1 "hi" (initState 0)).1 =
      RATE_LIMIT_MSG
    ∧ ((chat ⟨0, 0⟩ (fun _ => GatewayResult.rateLimit) 0 "dm" 1 1 "hi" (initState 0)).2).convos =
        (appendMsg 1 ⟨"user", "hi"⟩
          (ensure_thread 1 none (reset_if_new_day 0 (initState 0)))).convos
    ∧ counterOf ((chat ⟨0, 0⟩ (fun _ => GatewayResult.rateLimit) 0 "dm" 1 1 "hi"
          (initState 0)).2) "dm" 1 =
        counterOf (reset_if_new_day 0 (initState 0)) "dm" 1 + 1 :=
  claim_C3_amended ⟨0, 0⟩ 0 "dm" 1 1 "hi" (initState 0) (by decide)

/-- C5: with DM limit 3 on a fixed day `d`, the first three Send calls pass
the admission check and the fourth is rejected over quota with no effect;
when the date moves to `d2 ≠ d`, the admission check itself clears every
counter and moves the watermark, so the fifth call passes and succeeds. -/
theorem claim_C5 (d d2 k uid : ℕ) (m : String) (hday : d2 ≠ d) :
    ((over_quota ⟨3, 0⟩ d "dm" k (c5state d k uid m 0)).1 = false)
    ∧ ((over_quota ⟨3, 0⟩ d "dm" k (c5state d k uid m 1)).1 = false)
    ∧ ((over_quota ⟨3, 0⟩ d "dm" k (c5state d k uid m 2)).1 = false)
    ∧ (c5state d k uid m 3).usage_dm k = 3
    ∧ (over_quota ⟨3, 0⟩ d "dm" k (c5state d k uid m 3)).1 = true
    ∧ chat ⟨3, 0⟩ c5gw d "dm" k uid m (c5state d k uid m 3) =
        (LIMIT_MSG "dm" (limitFor ⟨3, 0⟩ "dm"), c5state d k uid m 3)
    ∧ (over_quota ⟨3, 0⟩ d2 "dm" k (c5state d k uid m 3)).1 = false
    ∧ (over_quota ⟨3, 0⟩ d2 "dm" k (c5state d k uid m 3)).2.usage_day = d2
    ∧ (∀ k2, (over_quota ⟨3, 0⟩ d2 "dm" k (c5state d k uid m 3)).2.usage_dm k2 = 0)
    ∧ (∀ k2, (over_quota ⟨3, 0⟩ d2 "dm" k (c5state d k uid m 3)).2.usage_guild k2 = 0)
    ∧ (chat ⟨3, 0⟩ c5gw d2 "dm" k uid m (c5state d k uid m 3)).1 = "hello" := by
  obtain ⟨hd0, hc0⟩ := c5state_invariant d k uid m 0
  obtain ⟨hd1, hc1⟩ := c5state_invariant d k uid m 1
  obtain ⟨hd2, hc2⟩ := c5state_invariant d k uid m 2
  obtain ⟨hd3, hc3⟩ := c5state_invariant d k uid m 3
  have h3 : (c5state d k uid m 3).usage_dm k = 3 := by rw [hc3]; decide
  have htrue : (over_quota ⟨3, 0⟩ d "dm" k (c5state d k uid m 3)).1 = true := by
    rw [over_quota_dm3_same_day d k _ hd3, h3]
    simp
  have hnew : over_quota ⟨3, 0⟩ d2 "dm" k (c5state d k uid m 3) =
      (false, { c5state d k uid m 3 with
                  usage_day := d2, usage_dm := fun _ => 0, usage_guild := fun _ => 0 }) :=
    over_quota_dm3_new_day d2 k _ (by rw [hd3]; exact hday)
  refine ⟨?_, ?_, ?_, h3, htrue, chat_blocked _ c5gw d "dm" k uid m _ htrue,
      ?_, ?_, ?_, ?_, ?_⟩
  · rw [over_quota_dm3_same_day d k _ hd0, hc0]
    simp
  · rw [over_quota_dm3_same_day d k _ hd1, hc1]
    simp
  · rw [over_quota_dm3_same_day d k _ hd2, hc2]
    simp
  · rw [hnew]
  · rw [hnew]
  · intro k2
    rw [hnew]
  · intro k2
    rw [hnew]
  · simp [chat, hnew, chat_openai, c5gw, pyOr]

/-- C5 witness: the scenario at day 0, new day 1, key 1, identity 1. -/
theorem claim_C5_witness :
    ((over_quota ⟨3, 0⟩ 0 "dm" 1 (c5state 0 1 1 "hi" 0)).1 = false)
    ∧ ((over_quota ⟨3, 0⟩ 0 "dm" 1 (c5state 0 1 1 "hi" 1)).1 = false)
    ∧ ((over_quota ⟨3, 0⟩ 0 "dm" 1 (c5state 0 1 1 "hi" 2)).1 = false)
    ∧ (c5state 0 1 1 "hi" 3).usage_dm 1 = 3
    ∧ (over_quota ⟨3, 0⟩ 0 "dm" 1 (c5state 0 1 1 "hi" 3)).1 = true
    ∧ chat ⟨3, 0⟩ c5gw 0 "dm" 1 1 "hi" (c5state 0 1 1 "hi" 3) =
        (LIMIT_MSG "dm" (limitFor ⟨3, 0⟩ "dm"), c5state 0 1 1 "hi" 3)
    ∧ (over_quota ⟨3, 0⟩ 1 "dm" 1 (c5state 0 1 1 "hi" 3)).1 = false
    ∧ (over_quota ⟨3, 0⟩ 1 "dm" 1 (c5state 0 1 1 "hi" 3)).2.usage_day = 1
    ∧ (∀ k2, (over_quota ⟨3, 0⟩ 1 "dm" 1 (c5state 0 1 1 "hi" 3)).2.usage_dm k2 = 0)
    ∧ (∀ k2, (over_quota ⟨3, 0⟩ 1 "dm" 1 (c5state 0 1 1 "hi" 3)).2.usage_guild k2 = 0)
    ∧ (chat ⟨3, 0⟩ c5gw 1 "dm" 1 1 "hi" (c5state 0 1 1 "hi" 3)).1 = "hello" :=
  claim_C5 0 1 1 1 "hi" (by decide)

/-- C7: for every string and positive maximum length, `chunk` splits at fixed
character offsets — the segments concatenate back to the original and every
segment except possibly the last has exactly the maximum length; a string of
length 5000 with maxLen 1900 yields segments of lengths 1900, 1900, 1200. -/
theorem claim_C7 (s : List Char) (n : ℕ) (hn : 0 < n) :
    (chunk s n).flatten = s
    ∧ (∀ i, ∀ h : i + 1 < (chunk s n).length,
        ((chunk s n).get ⟨i, Nat.lt_of_succ_lt h⟩).length = n)
    ∧ (s.length = 5000 → n = 1900 →
        (chunk s n).map List.length = [1900, 1900, 1200]) := by
  refine ⟨chunk_join n hn s, fun i h => chunk_get_length s n i hn h, fun hL h1900 => ?_⟩
  subst h1900
  rw [chunk_map_length, hL]
  decide

/-- C7 witness: the chunking of "abcde" with maxLen 2. -/
theorem claim_C7_witness :
    (0 : ℕ) < 2
    ∧ ((chunk ['a', 'b', 'c', 'd', 'e'] 2).flatten = ['a', 'b', 'c', 'd', 'e']
      ∧ (∀ i, ∀ h : i + 1 < (chunk ['a', 'b', 'c', 'd', 'e'] 2).length,
          ((chunk ['a', 'b', 'c', 'd', 'e'] 2).get ⟨i, Nat.lt_of_succ_lt h⟩).length = 2)
      ∧ ((['a', 'b', 'c', 'd', 'e'] : List Char).length = 5000 → 2 = 1900 →
          (chunk ['a', 'b', 'c', 'd', 'e'] 2).map List.length = [1900, 1900, 1200])) :=
  ⟨by decide, claim_C7 ['a', 'b', 'c', 'd', 'e'] 2 (by decide)⟩

/-- C1 amended: only `EnsureThread` (and thus `SetPersona`) re-applies the
trim, bounding the stored thread by 13 there; the appends of a chat turn run
after that trim, so a successful turn leaves at most 15 entries; after N
consecutive successful turns with N > 13 the stored length is exactly 15,
with index 0 still the system message from creation. -/
theorem claim_C1_amended :
    (∀ (uid : ℕ) (p : Option String) (st : BotState),
      (getThread (ensure_thread uid p st) uid).length ≤ 13)
    ∧ (∀ (uid : ℕ) (p : String) (st : BotState),
      (getThread (setpersona uid p st) uid).length ≤ 13)
    ∧ (∀ (gw : List Message → GatewayResult) (uid : ℕ) (m : String) (st : BotState),
      (getThread ((chat_openai gw uid m st).2) uid).length ≤ 15)
    ∧ (∀ (uid : ℕ) (m r : String) (N : ℕ), 13 < N →
      (getThread (runTurns uid m r N) uid).length = 15
      ∧ (getThread (runTurns uid m r N) uid).head? = some ⟨"system", DEFAULT_PERSONA⟩) := by
  refine ⟨getThread_ensure_le, ?_, ?_, ?_⟩
  · intro uid p st
    rw [getThread_setpersona, List.length_set]
    exact getThread_ensure_le uid (some p) st
  · intro gw uid m st
    have hbase := getThread_ensure_le uid none st
    simp only [chat_openai]
    cases gw (getThread (appendMsg uid ⟨"user", m⟩ (ensure_thread uid none st)) uid) <;>
      simp [getThread_appendMsg] <;> omega
  · intro uid m r N hN
    obtain ⟨-, hl, hh⟩ := runTurns_invariant uid m r N (by omega)
    refine ⟨?_, hh⟩
    rw [hl]
    omega

/-- C1 witness: after 14 turns for identity 2 the length is 15 and index 0 is
the default system persona. -/
theorem claim_C1_amended_witness :
    (getThread (runTurns 2 "yo" "ok" 14) 2).length = 15
    ∧ (getThread (runTurns 2 "yo" "ok" 14) 2).head? = some ⟨"system", DEFAULT_PERSONA⟩ :=
  claim_C1_amended.2.2.2 2 "yo" "ok" 14 (by decide)

/-- C8 counterexample: identity 1 holds thread [system "S", user "u",
assistant "a"]; `setpersona` changes the message at index 1 from the user
message to the old system message (the trim inside `ensure_thread` duplicates
the head of a short thread before index 0 is overwritten). -/
theorem claim_C8_counterexample :
    ((getThread c8state 1).drop 1).head? = some ⟨"user", "u"⟩
    ∧ ((getThread (setpersona 1 "P" c8state) 1).drop 1).head? = some ⟨"system", "S"⟩
    ∧ (⟨"system", "S"⟩ : Message) ≠ ⟨"user", "u"⟩ := by
  refine ⟨by decide, by decide, by decide⟩

/-- C8 amended: `setpersona` first runs `ensure_thread` — whose trim keeps the
head plus the last 12 entries — and only then overwrites index 0; so on an
absent thread the result is the new persona followed by a duplicate system
entry, and on an existing non-empty thread the result is the new persona
followed by the last `min(length, 12)` messages of the old thread (which may
include the old system message and need not equal the old history). Threads
of other identities are untouched. -/
theorem claim_C8_amended (uid : ℕ) (p : String) (st : BotState) :
    (st.convos uid = none →
      getThread (setpersona uid p st) uid =
        [⟨"system", p⟩, ⟨"system", pyOr (some p) DEFAULT_PERSONA⟩])
    ∧ (∀ t, st.convos uid = some t → t ≠ [] →
      getThread (setpersona uid p st) uid = ⟨"system", p⟩ :: t.drop (t.length - 12))
    ∧ (∀ uid2, uid2 ≠ uid → (setpersona uid p st).convos uid2 = st.convos uid2) := by
  refine ⟨?_, ?_, ?_⟩
  · intro h
    rw [getThread_setpersona, getThread_ensure_none st uid (some p) h]
    rfl
  · intro t ht hne
    rw [getThread_setpersona, getThread_ensure_some st uid (some p) t ht]
    obtain ⟨a, l, rfl⟩ := List.exists_cons_of_ne_nil hne
    rw [trim_cons, List.set_cons_zero]
  · intro uid2 h
    simp only [setpersona, ensure_thread]
    rw [convos_setThread_ne _ _ _ _ h, convos_setThread_ne _ _ _ _ h]

/-- C8 witness: the amended description evaluated on the concrete thread
[system "S", user "u", assistant "a"]. -/
theorem claim_C8_amended_witness :
    getThread (setpersona 1 "P" c8state) 1 =
      ⟨"system", "P"⟩ ::
        ([⟨"system", "S"⟩, ⟨"user", "u"⟩, ⟨"assistant", "a"⟩] : List Message).drop
          (([⟨"system", "S"⟩, ⟨"user", "u"⟩, ⟨"assistant", "a"⟩] : List Message).length - 12) :=
  (claim_C8_amended 1 "P" c8state).2.1
    [⟨"system", "S"⟩, ⟨"user", "u"⟩, ⟨"assistant", "a"⟩] (by decide) (by decide)

end Rin
